import Mathlib

/-!
Shallow embedding of the SharkTalent freelance-marketplace backend
(`src/backend/models.py`, `src/backend/auth.py`, `src/backend/routes.py`).

Database rows become Lean structures, the SQLAlchemy session becomes an
explicit `DB` state threaded through each handler, and every Flask handler
becomes a pure function `... → Resp × DB` returning the HTTP response
(status code and the JSON `message` field) together with the committed
state.  A handler that returns an error before `db.session.commit()`
returns the input state unchanged; a handler that commits returns the
fully updated state — a single commit is a single state transition, so
the atomicity of a commit is atomicity of one function application.

Python `float` column values are modelled as `Rat` (the claims under
study never depend on floating-point rounding); JSON numeric inputs are
modelled as the number they denote, since Python's `float()` is the
identity on numbers.  `datetime.utcnow()` is an explicit `now : Nat`
parameter.  Flask's `data.get(field)` truthiness test (`if not
data.get(field)`) is modelled by the `truthy*` helpers: absent, empty
string, and zero all count as missing, exactly as in Python.
-/

namespace SharkTalent

/-- `models.py` `User` row: id, email, names, role string
(`client` / `freelancer` / `admin`).  The password hash is opaque and
never read by the handlers under study, so it is omitted. -/
structure User where
  id : Nat
  email : String
  first_name : String
  last_name : String
  role : String
deriving Repr, DecidableEq

/-- `models.py` `Project` row.  `status` defaults to `"open"` at creation;
`budget` is a SQL float modelled as `Rat`; `created_at` is a timestamp. -/
structure Project where
  id : Nat
  title : String
  description : String
  budget : Rat
  skills_required : String
  status : String
  client_id : Nat
  created_at : Nat
deriving Repr, DecidableEq

/-- `models.py` `Proposal` row.  `status` defaults to `"pending"` at
creation; `submitted_at` is a timestamp used for ordering. -/
structure Proposal where
  id : Nat
  cover_letter : String
  bid_amount : Rat
  timeline_days : Int
  status : String
  freelancer_id : Nat
  project_id : Nat
  submitted_at : Nat
deriving Repr, DecidableEq

/-- The relational store: the three tables of `models.py`. -/
structure DB where
  users : List User
  projects : List Project
  proposals : List Proposal
deriving Repr, DecidableEq

/-- `User.query.get(id)` — primary-key lookup. -/
def DB.findUser (db : DB) (uid : Nat) : Option User :=
  db.users.find? (fun u => u.id = uid)

/-- `Project.query.get(id)` — primary-key lookup. -/
def DB.findProject (db : DB) (pid : Nat) : Option Project :=
  db.projects.find? (fun p => p.id = pid)

/-- `Proposal.query.get(id)` — primary-key lookup. -/
def DB.findProposal (db : DB) (pid : Nat) : Option Proposal :=
  db.proposals.find? (fun p => p.id = pid)

/-- An HTTP response as observed by the client: status code and the JSON
`message` field. -/
structure Resp where
  code : Nat
  message : String
deriving Repr, DecidableEq

/-- `routes.py` lines 344-381, `update_proposal_status`: the
accept/reject endpoint `PUT /proposals/<id>/status`.  Looks up the
proposal (404 on miss), its project, checks that the caller is the
project's owning client (403 otherwise, with no role consulted — there
is no admin bypass), validates the requested status, then sets the
target proposal's status; when accepting, additionally forces every
other proposal of the same project to `rejected` and the project to
`in_progress`, all committed together.  A missing project row would make
`project.client_id` raise in Python and be caught by the boundary
handler as a 500. -/
def update_proposal_status (db : DB) (current_user_id : Nat) (proposal_id : Nat)
    (new_status : Option String) : Resp × DB :=
  match db.findProposal proposal_id with
  | none => (⟨404, "Not found"⟩, db)
  | some proposal =>
    match db.findProject proposal.project_id with
    | none => (⟨500, "Error updating proposal status"⟩, db)
    | some project =>
      if project.client_id ≠ current_user_id then
        (⟨403, "Access denied"⟩, db)
      else
        match new_status with
        | none => (⟨400, "Status must be \"accepted\" or \"rejected\""⟩, db)
        | some ns =>
          if ns ≠ "accepted" ∧ ns ≠ "rejected" then
            (⟨400, "Status must be \"accepted\" or \"rejected\""⟩, db)
          else if ns = "accepted" then
            (⟨200, "Proposal " ++ ns ++ " successfully"⟩,
             { db with
               proposals := db.proposals.map (fun p =>
                 if p.id = proposal_id then { p with status := ns }
                 else if p.project_id = project.id then { p with status := "rejected" }
                 else p),
               projects := db.projects.map (fun x =>
                 if x.id = project.id then { x with status := "in_progress" } else x) })
          else
            (⟨200, "Proposal " ++ ns ++ " successfully"⟩,
             { db with
               proposals := db.proposals.map (fun p =>
                 if p.id = proposal_id then { p with status := ns } else p) })

/-- Truthiness of an optional string input, as Python `not data.get(f)`:
absent or empty counts as missing. -/
def truthyStr : Option String → Bool
  | none => false
  | some s => s ≠ ""

/-- Truthiness of an optional numeric input: absent or zero counts as
missing, as Python `not data.get(f)` on a JSON number. -/
def truthyRat : Option Rat → Bool
  | none => false
  | some q => q ≠ 0

/-- Truthiness of an optional id input (JSON number used as a key). -/
def truthyNat : Option Nat → Bool
  | none => false
  | some n => n ≠ 0

/-- Truthiness of an optional integer input. -/
def truthyInt : Option Int → Bool
  | none => false
  | some n => n ≠ 0

/-- `auth.py` lines 11-24, `role_required(required_role)`: the decorator
wrapping a handler.  It resolves the caller from the JWT identity and
compares the caller's role to the required one by string equality; on a
missing user or any mismatch — admin included — it answers 403 without
invoking the wrapped handler, otherwise it calls the handler with the
resolved user. -/
def role_required (db : DB) (required_role : String) (current_user_id : Nat)
    (f : User → Resp × DB) : Resp × DB :=
  match db.findUser current_user_id with
  | none => (⟨403, "Access denied. " ++ required_role ++ " role required."⟩, db)
  | some user =>
    if user.role ≠ required_role then
      (⟨403, "Access denied. " ++ required_role ++ " role required."⟩, db)
    else f user

/-- Outcome of the owner-or-admin check block repeated verbatim in
`update_project`, `delete_project` and `get_project_proposals`
(`routes.py` lines 123-127, 152-156, 272-276): owner passes immediately;
a non-owner's user row is fetched and the `admin` role grants access; a
missing user row makes `user.role` raise (`missingUser`, reported as a
500 by the boundary handler). -/
inductive OwnerCheck where
  | allowed
  | denied
  | missingUser
deriving Repr, DecidableEq

/-- The owner-or-admin check itself (see `OwnerCheck`). -/
def ownerOrAdmin (db : DB) (current_user_id : Nat) (ownerId : Nat) : OwnerCheck :=
  if ownerId ≠ current_user_id then
    match db.findUser current_user_id with
    | none => .missingUser
    | some user => if user.role ≠ "admin" then .denied else .allowed
  else .allowed

/-- JSON body of `POST /projects` (`routes.py` line 87): the four fields
read by `create_project`.  `budget` is a JSON number (Python `float()`
is the identity on it). -/
structure ProjectInput where
  title : Option String
  description : Option String
  budget : Option Rat
  skills_required : Option String
deriving Repr, DecidableEq

/-- Fresh autoincrement primary key for the project table. -/
def DB.nextProjectId (db : DB) : Nat :=
  db.projects.foldr (fun p m => max p.id m) 0 + 1

/-- Fresh autoincrement primary key for the proposal table. -/
def DB.nextProposalId (db : DB) : Nat :=
  db.proposals.foldr (fun p m => max p.id m) 0 + 1

/-- `routes.py` lines 81-113, `create_project` (inner handler, after the
`role_required('client')` wrapper has resolved `client_user`): checks
each of the four required fields for truthiness in order, then inserts a
project owned by the caller.  `status` is not passed to the constructor,
so the model default `"open"` applies; the budget value is stored as
given — no positivity or range check appears anywhere in the handler. -/
def create_project (db : DB) (now : Nat) (client_user : User)
    (data : ProjectInput) : Resp × DB :=
  if ¬ truthyStr data.title then (⟨400, "title is required"⟩, db)
  else if ¬ truthyStr data.description then (⟨400, "description is required"⟩, db)
  else if ¬ truthyRat data.budget then (⟨400, "budget is required"⟩, db)
  else if ¬ truthyStr data.skills_required then (⟨400, "skills_required is required"⟩, db)
  else
    let project : Project :=
      { id := db.nextProjectId
        title := data.title.getD ""
        description := data.description.getD ""
        budget := data.budget.getD 0
        skills_required := data.skills_required.getD ""
        status := "open"
        client_id := client_user.id
        created_at := now }
    (⟨201, "Project created successfully"⟩,
     { db with projects := db.projects ++ [project] })

/-- `POST /projects`: `create_project` composed with its
`role_required('client')` decorator, as the route is actually served. -/
def POST_projects (db : DB) (now : Nat) (current_user_id : Nat)
    (data : ProjectInput) : Resp × DB :=
  role_required db "client" current_user_id (fun u => create_project db now u data)

/-- JSON body of `PUT /projects/<id>` as read by `update_project`
(`routes.py` lines 131-135): any subset of the five updatable fields;
`field in data` becomes `Option.isSome`, and a supplied value is applied
verbatim by `setattr` with no validation. -/
structure ProjectUpdate where
  title : Option String
  description : Option String
  budget : Option Rat
  skills_required : Option String
  status : Option String
deriving Repr, DecidableEq

/-- The `setattr` loop of `update_project`: apply exactly the supplied
fields, in the order of `updatable_fields`. -/
def applyProjectUpdate (p : Project) (d : ProjectUpdate) : Project :=
  let p1 := match d.title with | some v => { p with title := v } | none => p
  let p2 := match d.description with | some v => { p1 with description := v } | none => p1
  let p3 := match d.budget with | some v => { p2 with budget := v } | none => p2
  let p4 := match d.skills_required with | some v => { p3 with skills_required := v } | none => p3
  match d.status with | some v => { p4 with status := v } | none => p4

/-- `routes.py` lines 115-142, `update_project`: 404 on a missing
project, owner-or-admin gate, then the supplied fields — `status`
included — are written to the row and committed. -/
def update_project (db : DB) (current_user_id : Nat) (project_id : Nat)
    (d : ProjectUpdate) : Resp × DB :=
  match db.findProject project_id with
  | none => (⟨404, "Not found"⟩, db)
  | some project =>
    match ownerOrAdmin db current_user_id project.client_id with
    | .missingUser => (⟨500, "Error updating project"⟩, db)
    | .denied => (⟨403, "Access denied"⟩, db)
    | .allowed =>
      (⟨200, "Project updated successfully"⟩,
       { db with projects := db.projects.map (fun x =>
           if x.id = project_id then applyProjectUpdate x d else x) })

/-- `routes.py` lines 144-168, `delete_project`: 404 on a missing
project, owner-or-admin gate, then `Proposal.query.filter_by(project_id
= project_id).delete()` followed by deleting the project row, both in
the same commit. -/
def delete_project (db : DB) (current_user_id : Nat) (project_id : Nat) : Resp × DB :=
  match db.findProject project_id with
  | none => (⟨404, "Not found"⟩, db)
  | some project =>
    match ownerOrAdmin db current_user_id project.client_id with
    | .missingUser => (⟨500, "Error deleting project"⟩, db)
    | .denied => (⟨403, "Access denied"⟩, db)
    | .allowed =>
      (⟨200, "Project deleted successfully"⟩,
       { db with
         proposals := db.proposals.filter (fun p => p.project_id ≠ project_id),
         projects := db.projects.filter (fun x => x.id ≠ project_id) })

/-- JSON body of `POST /proposals` (`routes.py` line 220): the four
fields read by `create_proposal`. -/
structure ProposalInput where
  project_id : Option Nat
  cover_letter : Option String
  bid_amount : Option Rat
  timeline_days : Option Int
deriving Repr, DecidableEq

/-- `routes.py` lines 236-239: count of the caller's existing proposals
on the target project. -/
def countFreelancerProposals (db : DB) (fid pid : Nat) : Nat :=
  (db.proposals.filter (fun p => p.freelancer_id = fid ∧ p.project_id = pid)).length

/-- `routes.py` lines 211-262, `create_proposal` (inner handler, after
`role_required('freelancer')`): field-presence checks in order, then the
project is looked up (404 `Project not found` on a miss), its status
compared to `open` (400 `Project is not accepting proposals` otherwise),
the 3-per-(freelancer, project) limit enforced (400 `Proposal limit
reached`), and only then a row inserted; the model default makes its
status `"pending"`. -/
def create_proposal (db : DB) (now : Nat) (freelancer_user : User)
    (data : ProposalInput) : Resp × DB :=
  if ¬ truthyNat data.project_id then (⟨400, "project_id is required"⟩, db)
  else if ¬ truthyStr data.cover_letter then (⟨400, "cover_letter is required"⟩, db)
  else if ¬ truthyRat data.bid_amount then (⟨400, "bid_amount is required"⟩, db)
  else if ¬ truthyInt data.timeline_days then (⟨400, "timeline_days is required"⟩, db)
  else
    let project_id := data.project_id.getD 0
    match db.findProject project_id with
    | none => (⟨404, "Project not found"⟩, db)
    | some project =>
      if project.status ≠ "open" then
        (⟨400, "Project is not accepting proposals"⟩, db)
      else if countFreelancerProposals db freelancer_user.id project_id ≥ 3 then
        (⟨400, "Proposal limit reached (3 proposals per project)"⟩, db)
      else
        let proposal : Proposal :=
          { id := db.nextProposalId
            cover_letter := data.cover_letter.getD ""
            bid_amount := data.bid_amount.getD 0
            timeline_days := data.timeline_days.getD 0
            status := "pending"
            freelancer_id := freelancer_user.id
            project_id := project_id
            submitted_at := now }
        (⟨201, "Proposal submitted successfully"⟩,
         { db with proposals := db.proposals ++ [proposal] })

/-- `POST /proposals`: `create_proposal` composed with its
`role_required('freelancer')` decorator, as the route is actually
served. -/
def POST_proposals (db : DB) (now : Nat) (current_user_id : Nat)
    (data : ProposalInput) : Resp × DB :=
  role_required db "freelancer" current_user_id (fun u => create_proposal db now u data)

/-- Flask-SQLAlchemy `paginate(page, per_page, error_out=False)`: the
slice of the ordered result set belonging to the requested page. -/
def paginate {α : Type} (l : List α) (page per_page : Nat) : List α :=
  (l.drop ((page - 1) * per_page)).take per_page

/-- `routes.py` lines 303-342, `get_my_proposals` (inner handler, after
`role_required('freelancer')`), restricted to the rows it returns: the
proposal table filtered to the caller as submitting freelancer, ordered
by `submitted_at` descending, paginated.  (The handler then serializes
each row together with a snapshot of its project; the serialization is a
per-row projection and is not needed by the claims.) -/
def get_my_proposals_items (db : DB) (freelancer_user : User)
    (page per_page : Nat) : List Proposal :=
  paginate
    ((db.proposals.filter (fun p => p.freelancer_id = freelancer_user.id)).mergeSort
      (fun a b => b.submitted_at ≤ a.submitted_at))
    page per_page

/-! ### Concrete data for witnesses and counterexamples -/

/-- A client user, owner of `sampleProject`. -/
def sampleClient : User := ⟨1, "client@example.com", "Ada", "Client", "client"⟩

/-- An admin user, owner of nothing. -/
def sampleAdmin : User := ⟨2, "admin@example.com", "Alan", "Admin", "admin"⟩

/-- A freelancer user, submitter of `sampleProposalA`. -/
def sampleFreelancer : User := ⟨3, "free@example.com", "Flo", "Lancer", "freelancer"⟩

/-- A second freelancer, submitter of `sampleProposalB`. -/
def sampleOther : User := ⟨4, "other@example.com", "Omar", "Other", "freelancer"⟩

/-- An open project owned by `sampleClient`. -/
def sampleProject : Project := ⟨10, "Build API", "REST backend", 500, "python", "open", 1, 0⟩

/-- A pending proposal by `sampleFreelancer` on `sampleProject`. -/
def sampleProposalA : Proposal := ⟨100, "pick me", 450, 14, "pending", 3, 10, 1⟩

/-- A pending proposal by `sampleOther` on `sampleProject`. -/
def sampleProposalB : Proposal := ⟨101, "pick me too", 480, 10, "pending", 4, 10, 2⟩

/-- A store holding the four users, the open project and two pending
proposals on it. -/
def sampleDB : DB :=
  ⟨[sampleClient, sampleAdmin, sampleFreelancer, sampleOther],
   [sampleProject], [sampleProposalA, sampleProposalB]⟩

/-- `sampleDB` after the owning client accepted proposal 100: proposal
100 is `accepted`, proposal 101 `rejected`, project 10 `in_progress`. -/
def sampleAcceptedDB : DB := (update_proposal_status sampleDB 1 100 (some "accepted")).2

/-! ### C1 — accept cascade -/

/-- C1.  When the owning client of a proposal's project calls
`update_proposal_status` with `accepted`, the single committed state has
the target proposal `accepted`, every other proposal of that project
`rejected`, and the project `in_progress`.  The three changes are one
state transition of the embedding — the handler commits once, so no
intermediate state is observable. -/
theorem accept_cascade_atomic (db : DB) (uid pid : Nat) (pr : Proposal) (proj : Project)
    (hpr : db.findProposal pid = some pr)
    (hproj : db.findProject pr.project_id = some proj)
    (hown : proj.client_id = uid) :
    ∃ db',
      update_proposal_status db uid pid (some "accepted") =
        (⟨200, "Proposal accepted successfully"⟩, db') ∧
      (∀ q ∈ db'.proposals, q.id = pid → q.status = "accepted") ∧
      (∀ q ∈ db'.proposals, q.id ≠ pid → q.project_id = proj.id → q.status = "rejected") ∧
      (∀ x ∈ db'.projects, x.id = proj.id → x.status = "in_progress") := by
  refine ⟨{ db with
      proposals := db.proposals.map (fun p =>
        if p.id = pid then { p with status := "accepted" }
        else if p.project_id = proj.id then { p with status := "rejected" }
        else p),
      projects := db.projects.map (fun x =>
        if x.id = proj.id then { x with status := "in_progress" } else x) },
    ?_, ?_, ?_, ?_⟩
  · simp only [update_proposal_status, hpr, hproj, hown]
    simp
  · intro q hq hid
    simp only [List.mem_map] at hq
    obtain ⟨p, hp, rfl⟩ := hq
    by_cases h1 : p.id = pid
    · simp [h1]
    · by_cases h2 : p.project_id = proj.id <;> simp [h1, h2] at hid
  · intro q hq hid hpid
    simp only [List.mem_map] at hq
    obtain ⟨p, hp, rfl⟩ := hq
    by_cases h1 : p.id = pid
    · simp [h1] at hid
    · by_cases h2 : p.project_id = proj.id
      · simp [h1, h2]
      · simp [h1, h2] at hpid
  · intro x hx hid
    simp only [List.mem_map] at hx
    obtain ⟨p, hp, rfl⟩ := hx
    by_cases h1 : p.id = proj.id
    · simp [h1]
    · simp [h1] at hid

/-- Witness for C1 at the concrete store: client 1 accepts proposal 100
on project 10. -/
theorem accept_cascade_atomic_witness :
    ∃ db',
      update_proposal_status sampleDB 1 100 (some "accepted") =
        (⟨200, "Proposal accepted successfully"⟩, db') ∧
      (∀ q ∈ db'.proposals, q.id = 100 → q.status = "accepted") ∧
      (∀ q ∈ db'.proposals, q.id ≠ 100 → q.project_id = sampleProject.id → q.status = "rejected") ∧
      (∀ x ∈ db'.projects, x.id = sampleProject.id → x.status = "in_progress") :=
  accept_cascade_atomic sampleDB 1 100 sampleProposalA sampleProject rfl rfl rfl

/-! ### C2 — the proposal status state machine -/

/-- C2 counterexample.  The claim says `accepted` is terminal, but
`update_proposal_status` never inspects the current status: in
`sampleAcceptedDB` proposal 100 is `accepted`, and the owning client's
subsequent `setStatus rejected` call on it succeeds and moves it to
`rejected`. -/
theorem accepted_not_terminal_cex :
    (sampleAcceptedDB.findProposal 100).map Proposal.status = some "accepted" ∧
    (update_proposal_status sampleAcceptedDB 1 100 (some "rejected")).1.code = 200 ∧
    ((update_proposal_status sampleAcceptedDB 1 100 (some "rejected")).2.findProposal 100).map
      Proposal.status = some "rejected" := ⟨rfl, rfl, rfl⟩

/-- C2 amended.  The code has no terminality guard: whenever the owning
client calls `setStatus` with a valid status (`accepted` or `rejected`),
the target proposal's status is overwritten with the requested value
regardless of its current value — so `pending → accepted`,
`pending → rejected` and the sibling cascade exist as claimed, but
`accepted` and `rejected` are not terminal and every later valid call
changes the status again. -/
theorem setStatus_overwrites_any_status (db : DB) (uid pid : Nat) (ns : String)
    (pr : Proposal) (proj : Project)
    (hpr : db.findProposal pid = some pr)
    (hproj : db.findProject pr.project_id = some proj)
    (hown : proj.client_id = uid)
    (hns : ns = "accepted" ∨ ns = "rejected") :
    ∃ db',
      update_proposal_status db uid pid (some ns) =
        (⟨200, "Proposal " ++ ns ++ " successfully"⟩, db') ∧
      (∀ q ∈ db'.proposals, q.id = pid → q.status = ns) := by
  rcases hns with hns | hns
  · subst hns
    refine ⟨{ db with
        proposals := db.proposals.map (fun p =>
          if p.id = pid then { p with status := "accepted" }
          else if p.project_id = proj.id then { p with status := "rejected" }
          else p),
        projects := db.projects.map (fun x =>
          if x.id = proj.id then { x with status := "in_progress" } else x) },
      ?_, ?_⟩
    · simp only [update_proposal_status, hpr, hproj, hown]
      simp
    · intro q hq hid
      simp only [List.mem_map] at hq
      obtain ⟨p, hp, rfl⟩ := hq
      by_cases h1 : p.id = pid
      · simp [h1]
      · by_cases h2 : p.project_id = proj.id <;> simp [h1, h2] at hid
  · subst hns
    refine ⟨{ db with
        proposals := db.proposals.map (fun p =>
          if p.id = pid then { p with status := "rejected" } else p) },
      ?_, ?_⟩
    · simp only [update_proposal_status, hpr, hproj, hown]
      simp
    · intro q hq hid
      simp only [List.mem_map] at hq
      obtain ⟨p, hp, rfl⟩ := hq
      by_cases h1 : p.id = pid
      · simp [h1]
      · simp [h1] at hid

/-- Witness for the amended C2 at the concrete store: the already
accepted proposal 100 is overwritten to `rejected`. -/
theorem setStatus_overwrites_any_status_witness :
    ∃ db',
      update_proposal_status sampleAcceptedDB 1 100 (some "rejected") =
        (⟨200, "Proposal " ++ "rejected" ++ " successfully"⟩, db') ∧
      (∀ q ∈ db'.proposals, q.id = 100 → q.status = "rejected") :=
  setStatus_overwrites_any_status sampleAcceptedDB 1 100 "rejected"
    ⟨100, "pick me", 450, 14, "accepted", 3, 10, 1⟩
    ⟨10, "Build API", "REST backend", 500, "python", "in_progress", 1, 0⟩
    rfl rfl rfl (Or.inr rfl)

/-! ### C6 — only the owning client may accept or reject -/

/-- C6.  `update_proposal_status` denies every caller other than the
owning client of the proposal's project and leaves the store untouched.
The statement quantifies over an arbitrary caller id and never consults
the user table: the handler has no admin bypass (asymmetric with
`update_project`/`delete_project`, whose `ownerOrAdmin` gate admits
admins). -/
theorem setStatus_requires_owner (db : DB) (uid pid : Nat) (ns : Option String)
    (pr : Proposal) (proj : Project)
    (hpr : db.findProposal pid = some pr)
    (hproj : db.findProject pr.project_id = some proj)
    (hnot : proj.client_id ≠ uid) :
    update_proposal_status db uid pid ns = (⟨403, "Access denied"⟩, db) := by
  simp only [update_proposal_status, hpr, hproj]
  simp [hnot]

/-- Witness for C6 at the concrete store: caller 2 holds role `admin`
yet is denied, with no state change. -/
theorem setStatus_requires_owner_witness :
    sampleDB.findUser 2 = some sampleAdmin ∧ sampleAdmin.role = "admin" ∧
    update_proposal_status sampleDB 2 100 (some "accepted") =
      (⟨403, "Access denied"⟩, sampleDB) :=
  ⟨rfl, rfl,
   setStatus_requires_owner sampleDB 2 100 (some "accepted") sampleProposalA sampleProject
     rfl rfl (by decide)⟩

/-! ### C10 — exact role match on role-gated operations -/

/-- C10.  The `role_required` decorator denies any caller whose role is
not string-equal to the required one — admins included — answering 403
with the store unchanged, and the result does not depend on the wrapped
handler `f`: the handler is never invoked.  `POST /projects` and
`POST /proposals` (and the two listMine routes) are served through this
wrapper. -/
theorem role_required_exact_match (db : DB) (r : String) (uid : Nat)
    (f : User → Resp × DB) (u : User)
    (hu : db.findUser uid = some u) (hr : u.role ≠ r) :
    role_required db r uid f =
      (⟨403, "Access denied. " ++ r ++ " role required."⟩, db) := by
  simp only [role_required, hu]
  simp [hr]

/-- Witness for C10 at the concrete store: the admin (id 2) calling the
client-gated project-creation endpoint is denied with no state change,
for the very handler the route wraps. -/
theorem role_required_exact_match_witness :
    sampleAdmin.role = "admin" ∧
    role_required sampleDB "client" 2
        (fun u => create_proposal sampleDB 7 u ⟨some 10, some "x", some 9, some 3⟩) =
      (⟨403, "Access denied. " ++ "client" ++ " role required."⟩, sampleDB) :=
  ⟨rfl,
   role_required_exact_match sampleDB "client" 2
     (fun u => create_proposal sampleDB 7 u ⟨some 10, some "x", some 9, some 3⟩)
     sampleAdmin rfl (by decide)⟩

/-! ### C3 — how a project reaches `in_progress` -/

/-- C3 counterexample.  The claim says only a proposal acceptance can
move a project to `in_progress`, but `update_project` lists `status`
among its updatable fields with no value validation: the owning client
updating project 10 with `status = "in_progress"` succeeds (200) and
commits that status, with no proposal involved. -/
theorem update_project_in_progress_cex :
    (sampleDB.findProject 10).map Project.status = some "open" ∧
    (update_project sampleDB 1 10 ⟨none, none, none, none, some "in_progress"⟩).1 =
      ⟨200, "Project updated successfully"⟩ ∧
    ((update_project sampleDB 1 10 ⟨none, none, none, none, some "in_progress"⟩).2.findProject
      10).map Project.status = some "in_progress" := ⟨rfl, rfl, rfl⟩

/-- C3 amended.  A project's status moves to `in_progress` either as the
accept-cascade side effect or through `update_project`: the
owner-or-admin gate of `update_project` applies any supplied `status`
value verbatim — `in_progress` included — so the invariant as claimed
does not hold. -/
theorem update_project_sets_status (db : DB) (uid pid : Nat) (d : ProjectUpdate)
    (s : String) (proj : Project)
    (hproj : db.findProject pid = some proj)
    (hallow : ownerOrAdmin db uid proj.client_id = OwnerCheck.allowed)
    (hst : d.status = some s) :
    ∃ db',
      update_project db uid pid d = (⟨200, "Project updated successfully"⟩, db') ∧
      (∀ x ∈ db'.projects, x.id = pid → x.status = s) := by
  refine ⟨{ db with projects := db.projects.map (fun x =>
      if x.id = pid then applyProjectUpdate x d else x) }, ?_, ?_⟩
  · simp only [update_project, hproj, hallow]
  · intro x hx hid
    simp only [List.mem_map] at hx
    obtain ⟨p, hp, rfl⟩ := hx
    by_cases h1 : p.id = pid
    · simp only [h1, if_true]
      simp [applyProjectUpdate, hst]
    · simp [h1] at hid

/-- Witness for the amended C3 at the concrete store: the owning client
sets project 10 to `in_progress` directly. -/
theorem update_project_sets_status_witness :
    ∃ db',
      update_project sampleDB 1 10 ⟨none, none, none, none, some "in_progress"⟩ =
        (⟨200, "Project updated successfully"⟩, db') ∧
      (∀ x ∈ db'.projects, x.id = 10 → x.status = "in_progress") :=
  update_project_sets_status sampleDB 1 10 ⟨none, none, none, none, some "in_progress"⟩
    "in_progress" sampleProject rfl rfl rfl

/-! ### C4 — proposal creation on a closed or missing project -/

/-- C4.  For a well-formed proposal-creation request (all four fields
present and truthy): when the target project exists but its status is
not `open`, `create_proposal` answers 400 `Project is not accepting
proposals` with the store unchanged — the spec's ConflictError — and
when the project does not exist it answers 404 `Project not found`, a
distinct response, so the two failures are distinguishable. -/
theorem create_proposal_not_open_conflict (db : DB) (now : Nat) (u : User)
    (data : ProposalInput)
    (h1 : truthyNat data.project_id = true)
    (h2 : truthyStr data.cover_letter = true)
    (h3 : truthyRat data.bid_amount = true)
    (h4 : truthyInt data.timeline_days = true) :
    (∀ proj, db.findProject (data.project_id.getD 0) = some proj → proj.status ≠ "open" →
      create_proposal db now u data = (⟨400, "Project is not accepting proposals"⟩, db)) ∧
    (db.findProject (data.project_id.getD 0) = none →
      create_proposal db now u data = (⟨404, "Project not found"⟩, db)) ∧
    (⟨400, "Project is not accepting proposals"⟩ : Resp) ≠ ⟨404, "Project not found"⟩ := by
  refine ⟨?_, ?_, by decide⟩
  · intro proj hproj hstat
    simp only [create_proposal, h1, h2, h3, h4, hproj]
    simp [hstat]
  · intro hnone
    simp only [create_proposal, h1, h2, h3, h4, hnone]
    simp

/-- Witness for C4 at the concrete stores: in `sampleAcceptedDB` project
10 is `in_progress`, so the freelancer's well-formed submission gets the
conflict response with no insert; against an absent project id the same
request would get the distinct 404 (second conjunct). -/
theorem create_proposal_not_open_conflict_witness :
    (sampleAcceptedDB.findProject 10).map Project.status = some "in_progress" ∧
    create_proposal sampleAcceptedDB 7 sampleFreelancer ⟨some 10, some "x", some 9, some 3⟩ =
      (⟨400, "Project is not accepting proposals"⟩, sampleAcceptedDB) :=
  ⟨rfl,
   (create_proposal_not_open_conflict sampleAcceptedDB 7 sampleFreelancer
       ⟨some 10, some "x", some 9, some 3⟩ rfl rfl rfl rfl).1
     ⟨10, "Build API", "REST backend", 500, "python", "in_progress", 1, 0⟩
     rfl (by decide)⟩

/-! ### C5 — the 3-proposals-per-(freelancer, project) limit -/

/-- C5.  On an existing open project with a well-formed request: while
the caller has fewer than three proposals on the project the submission
succeeds, appending exactly one row with status `pending` owned by the
caller and raising the caller's count on that project by one (so the
first three calls succeed); once the caller has three or more, the call
answers 400 `Proposal limit reached` with the store unchanged. -/
theorem proposal_limit (db : DB) (now : Nat) (u : User) (data : ProposalInput)
    (proj : Project)
    (h1 : truthyNat data.project_id = true)
    (h2 : truthyStr data.cover_letter = true)
    (h3 : truthyRat data.bid_amount = true)
    (h4 : truthyInt data.timeline_days = true)
    (hproj : db.findProject (data.project_id.getD 0) = some proj)
    (hopen : proj.status = "open") :
    (countFreelancerProposals db u.id (data.project_id.getD 0) < 3 →
      ∃ p, create_proposal db now u data =
          (⟨201, "Proposal submitted successfully"⟩,
           { db with proposals := db.proposals ++ [p] }) ∧
        p.status = "pending" ∧ p.freelancer_id = u.id ∧
        p.project_id = data.project_id.getD 0 ∧
        countFreelancerProposals { db with proposals := db.proposals ++ [p] }
            u.id (data.project_id.getD 0) =
          countFreelancerProposals db u.id (data.project_id.getD 0) + 1) ∧
    (countFreelancerProposals db u.id (data.project_id.getD 0) ≥ 3 →
      create_proposal db now u data =
        (⟨400, "Proposal limit reached (3 proposals per project)"⟩, db)) := by
  constructor
  · intro hlt
    refine ⟨{ id := db.nextProposalId
              cover_letter := data.cover_letter.getD ""
              bid_amount := data.bid_amount.getD 0
              timeline_days := data.timeline_days.getD 0
              status := "pending"
              freelancer_id := u.id
              project_id := data.project_id.getD 0
              submitted_at := now }, ?_, rfl, rfl, rfl, ?_⟩
    · simp only [create_proposal, h1, h2, h3, h4, hproj]
      simp [hopen, Nat.not_le.mpr hlt]
    · simp [countFreelancerProposals, List.filter_append]
  · intro hge
    simp only [create_proposal, h1, h2, h3, h4, hproj]
    simp [hopen, hge]

/-- Witness for C5 at the concrete store: freelancer 3 has one proposal
on open project 10, so a further well-formed submission succeeds with a
pending row and the count rises from 1 to 2. -/
theorem proposal_limit_witness :
    countFreelancerProposals sampleDB 3 10 = 1 ∧
    (∃ p, create_proposal sampleDB 7 sampleFreelancer ⟨some 10, some "x", some 9, some 3⟩ =
        (⟨201, "Proposal submitted successfully"⟩,
         { sampleDB with proposals := sampleDB.proposals ++ [p] }) ∧
      p.status = "pending" ∧ p.freelancer_id = sampleFreelancer.id ∧
      p.project_id = (some 10 : Option Nat).getD 0 ∧
      countFreelancerProposals { sampleDB with proposals := sampleDB.proposals ++ [p] }
          sampleFreelancer.id ((some 10 : Option Nat).getD 0) =
        countFreelancerProposals sampleDB sampleFreelancer.id
          ((some 10 : Option Nat).getD 0) + 1) :=
  ⟨rfl,
   (proposal_limit sampleDB 7 sampleFreelancer ⟨some 10, some "x", some 9, some 3⟩
       sampleProject rfl rfl rfl rfl rfl rfl).1 (by decide)⟩

/-! ### C7 — project creation validation -/

/-- C7 counterexample.  The claim requires the budget to parse as a
positive number, but `create_project` only runs `float(data['budget'])`
and stores the result: with budget `-5` — present, nonzero, but not
positive — the call succeeds (201), inserts a row, and the row carries
budget `-5`. -/
theorem create_project_negative_budget_cex :
    (POST_projects sampleDB 5 1 ⟨some "t2", some "d2", some (-5), some "sk"⟩).1 =
      ⟨201, "Project created successfully"⟩ ∧
    (POST_projects sampleDB 5 1 ⟨some "t2", some "d2", some (-5), some "sk"⟩).2.projects.length =
      sampleDB.projects.length + 1 ∧
    ((POST_projects sampleDB 5 1 ⟨some "t2", some "d2", some (-5), some "sk"⟩).2.findProject
      11).map Project.budget = some (-5) ∧
    ¬ (0 : Rat) < -5 := ⟨rfl, rfl, rfl, by decide⟩

/-- C7 amended.  `POST /projects` succeeds exactly for a caller of role
`client` with all four fields present and truthy; the budget is stored
as given with no positivity check (a negative budget is accepted).  On
success one row is appended with status `open` and the caller as owning
client; a role mismatch answers 403 and a missing field answers 400,
each leaving the store unchanged. -/
theorem create_project_amended (db : DB) (now uid : Nat) (data : ProjectInput) (u : User)
    (hu : db.findUser uid = some u) :
    (u.role ≠ "client" →
      POST_projects db now uid data =
        (⟨403, "Access denied. " ++ "client" ++ " role required."⟩, db)) ∧
    (u.role = "client" → truthyStr data.title = true → truthyStr data.description = true →
      truthyRat data.budget = true → truthyStr data.skills_required = true →
      ∃ p, POST_projects db now uid data =
          (⟨201, "Project created successfully"⟩,
           { db with projects := db.projects ++ [p] }) ∧
        p.status = "open" ∧ p.client_id = u.id ∧ p.budget = data.budget.getD 0) ∧
    (u.role = "client" → truthyStr data.title = false →
      POST_projects db now uid data = (⟨400, "title is required"⟩, db)) ∧
    (u.role = "client" → truthyStr data.title = true →
      truthyStr data.description = false →
      POST_projects db now uid data = (⟨400, "description is required"⟩, db)) ∧
    (u.role = "client" → truthyStr data.title = true → truthyStr data.description = true →
      truthyRat data.budget = false →
      POST_projects db now uid data = (⟨400, "budget is required"⟩, db)) ∧
    (u.role = "client" → truthyStr data.title = true → truthyStr data.description = true →
      truthyRat data.budget = true → truthyStr data.skills_required = false →
      POST_projects db now uid data = (⟨400, "skills_required is required"⟩, db)) := by
  refine ⟨?_, ?_, ?_, ?_, ?_, ?_⟩
  · intro hr
    simp only [POST_projects, role_required, hu]
    simp [hr]
  · intro hr k1 k2 k3 k4
    refine ⟨{ id := db.nextProjectId
              title := data.title.getD ""
              description := data.description.getD ""
              budget := data.budget.getD 0
              skills_required := data.skills_required.getD ""
              status := "open"
              client_id := u.id
              created_at := now }, ?_, rfl, rfl, rfl⟩
    simp only [POST_projects, role_required, hu]
    simp only [create_project, k1, k2, k3, k4]
    simp [hr]
  · intro hr k1
    simp only [POST_projects, role_required, hu]
    simp only [create_project, k1]
    simp [hr]
  · intro hr k1 k2
    simp only [POST_projects, role_required, hu]
    simp only [create_project, k1, k2]
    simp [hr]
  · intro hr k1 k2 k3
    simp only [POST_projects, role_required, hu]
    simp only [create_project, k1, k2, k3]
    simp [hr]
  · intro hr k1 k2 k3 k4
    simp only [POST_projects, role_required, hu]
    simp only [create_project, k1, k2, k3, k4]
    simp [hr]

/-- Witness for the amended C7 at the concrete store: the client creates
a project with the negative budget `-5`; the call succeeds and the
appended row is `open`, client-owned, with budget `-5`. -/
theorem create_project_amended_witness :
    ∃ p, POST_projects sampleDB 5 1 ⟨some "t2", some "d2", some (-5), some "sk"⟩ =
        (⟨201, "Project created successfully"⟩,
         { sampleDB with projects := sampleDB.projects ++ [p] }) ∧
      p.status = "open" ∧ p.client_id = sampleClient.id ∧
      p.budget = (some (-5) : Option Rat).getD 0 :=
  (create_project_amended sampleDB 5 1 ⟨some "t2", some "d2", some (-5), some "sk"⟩
      sampleClient rfl).2.1 rfl rfl rfl (by decide) rfl

/-! ### C8 — project deletion cascades -/

/-- C8.  When the owner-or-admin gate admits the caller,
`delete_project` commits, in one state transition, a store in which no
proposal row references the deleted project id and the project row
itself is gone; nothing is added (every surviving row was already
present). -/
theorem delete_project_cascades (db : DB) (uid pid : Nat) (proj : Project)
    (hproj : db.findProject pid = some proj)
    (hallow : ownerOrAdmin db uid proj.client_id = OwnerCheck.allowed) :
    ∃ db',
      delete_project db uid pid = (⟨200, "Project deleted successfully"⟩, db') ∧
      (∀ q ∈ db'.proposals, q.project_id ≠ pid) ∧
      db'.findProject pid = none ∧
      (∀ q ∈ db'.proposals, q ∈ db.proposals) ∧
      (∀ x ∈ db'.projects, x ∈ db.projects) := by
  refine ⟨{ db with
      proposals := db.proposals.filter (fun p => p.project_id ≠ pid),
      projects := db.projects.filter (fun x => x.id ≠ pid) },
    ?_, ?_, ?_, ?_, ?_⟩
  · simp only [delete_project, hproj, hallow]
  · intro q hq
    have := (List.mem_filter.mp hq).2
    simpa using this
  · rw [DB.findProject, List.find?_eq_none]
    intro x hx
    have := (List.mem_filter.mp hx).2
    simpa using this
  · intro q hq
    exact (List.mem_filter.mp hq).1
  · intro x hx
    exact (List.mem_filter.mp hx).1

/-- Witness for C8 at the concrete store: the admin (not the owner)
deletes project 10, which has two proposals; afterwards no proposal
references id 10 and the project row is gone. -/
theorem delete_project_cascades_witness :
    sampleDB.proposals.length = 2 ∧
    ∃ db',
      delete_project sampleDB 2 10 = (⟨200, "Project deleted successfully"⟩, db') ∧
      (∀ q ∈ db'.proposals, q.project_id ≠ 10) ∧
      db'.findProject 10 = none ∧
      (∀ q ∈ db'.proposals, q ∈ sampleDB.proposals) ∧
      (∀ x ∈ db'.projects, x ∈ sampleDB.projects) :=
  ⟨rfl, delete_project_cascades sampleDB 2 10 sampleProject rfl rfl⟩

/-! ### C9 — listMine identity isolation -/

/-- C9.  Every proposal returned by any page of the freelancer's
`my-proposals` listing has the caller as its submitting freelancer: the
handler filters the table by `freelancer_id` before ordering and
paginating, so a proposal of a different freelancer is never included. -/
theorem my_proposals_isolation (db : DB) (u : User) (page per_page : Nat)
    (q : Proposal) (hq : q ∈ get_my_proposals_items db u page per_page) :
    q.freelancer_id = u.id := by
  simp only [get_my_proposals_items, paginate] at hq
  have h1 := List.mem_of_mem_take hq
  have h2 := List.mem_of_mem_drop h1
  rw [List.mem_mergeSort, List.mem_filter] at h2
  simpa using h2.2

/-- Witness for C9 at the concrete store: proposal 100 appears on the
first page of freelancer 3's listing, and the theorem yields that its
submitter is the caller. -/
theorem my_proposals_isolation_witness :
    sampleProposalA ∈ get_my_proposals_items sampleDB sampleFreelancer 1 10 ∧
    sampleProposalA.freelancer_id = sampleFreelancer.id := by
  have hmem : sampleProposalA ∈ get_my_proposals_items sampleDB sampleFreelancer 1 10 := by
    simp only [get_my_proposals_items, paginate]
    rw [show (1 - 1) * 10 = 0 from rfl, List.drop_zero,
      List.take_of_length_le (by rw [List.length_mergeSort]; decide),
      List.mem_mergeSort]
    decide
  exact ⟨hmem, my_proposals_isolation sampleDB sampleFreelancer 1 10 sampleProposalA hmem⟩

end SharkTalent
